import Mathlib

/-!
# Verification of the interactive OpenAI proxy (src/app.py)

Shallow embedding of the single-file FastAPI application that intercepts
chat-completion requests, suspends them pending human review, and lets a
reviewer resolve each pending request with a hand-written response.

The embedding models:
* JSON documents (`Json`) — the opaque request/response payloads;
* the global `open_requests` dictionary as an association list (`Store`)
  of `ChatCompletionRequest` entries;
* the endpoint handlers `chat_completions` (registration step and the
  waiter's consume step), `proxy_to_openai`, `get_request` and
  `modify_request` as pure functions over the store, with the
  nondeterministic inputs (uuid, current time, upstream responses,
  parsed body) passed in as explicit parameters;
* Python exceptions that escape a handler as a `pyError` outcome
  (the ASGI framework surfaces such unhandled exceptions as a 500
  server-error response), and `HTTPException(status, detail)` as an
  explicit `httpError` outcome.
-/

/-- A JSON value, as produced by Python's `json` module. -/
inductive Json where
  | null : Json
  | bool (b : Bool) : Json
  | num (n : Int) : Json
  | str (s : String) : Json
  | arr (elems : List Json) : Json
  | obj (fields : List (String × Json)) : Json

namespace Json

/-- `d.get(k)` on a Python dict: `none` when the value is not a dict
(Python would raise `AttributeError`), `some none` when the key is
absent, `some (some v)` when present. -/
def get? : Json → String → Option Json
  | obj fs, k => fs.lookup k
  | _, _ => none

/-- `d.get(k, default)` on a Python dict, `none` when `d` is not a dict
(Python raises `AttributeError` on `.get`). -/
def getD (j : Json) (k : String) (d : Json) : Option Json :=
  match j with
  | obj fs => some ((fs.lookup k).getD d)
  | _ => none

end Json

/-- Counts the maximal runs of non-whitespace characters; `inWord` says
whether the previous character was part of a run. -/
def pyTokenCount : List Char → Bool → Nat
  | [], _ => 0
  | c :: cs, inWord =>
    if c.isWhitespace then pyTokenCount cs false
    else (if inWord then 0 else 1) + pyTokenCount cs true

/-- `len(s.split())` in Python: the number of maximal whitespace-separated
runs of non-whitespace characters — the whitespace-token count used by
the usage counters. -/
def pySplitCount (s : String) : Nat :=
  pyTokenCount s.data false

/-- The pydantic model `ChatCompletionRequest` (src/app.py:37-39):
`request` is the parsed original payload, `response` starts as `None`
and is set once the reviewer resolves the entry. -/
structure ChatCompletionRequest where
  request : Json
  response : Option Json := none

/-- The global `open_requests` dictionary (src/app.py:30), modelled as an
association list from request id to entry. -/
abbrev Store := List (String × ChatCompletionRequest)

namespace Store

/-- `open_requests[rid]` lookup / `rid in open_requests` membership test. -/
def find? (s : Store) (rid : String) : Option ChatCompletionRequest :=
  match s with
  | [] => none
  | kv :: rest => if kv.1 = rid then some kv.2 else find? rest rid

/-- `open_requests[rid] = entry` for a fresh id (src/app.py:46). -/
def insert (s : Store) (rid : String) (e : ChatCompletionRequest) : Store :=
  (rid, e) :: s

/-- `open_requests[rid].response = resp` (src/app.py:226): in-place
mutation of the stored entry. -/
def setResponse (s : Store) (rid : String) (resp : Json) : Store :=
  s.map (fun kv => if kv.1 = rid then (kv.1, { kv.2 with response := some resp }) else kv)

/-- `del open_requests[rid]` (src/app.py:54). -/
def erase (s : Store) (rid : String) : Store :=
  s.filter (fun kv => kv.1 ≠ rid)

end Store

/-! ## Interception endpoint (src/app.py:42-55) -/

/-- Outcome of the registration step of `chat_completions`. -/
inductive InterceptOutcome where
  | registered (rid : String)
  | pyError

/-- Registration step of `chat_completions` (src/app.py:44-46): a fresh
uuid `rid` is generated, then `await request.json()` parses the body
(`body = none` models a malformed JSON body, whose `JSONDecodeError`
escapes the handler before line 46 runs), then the entry is inserted
with `response = None`. Returns the store after the step and the outcome. -/
def chat_completions_register (store : Store) (rid : String) (body : Option Json) :
    Store × InterceptOutcome :=
  match body with
  | none => (store, InterceptOutcome.pyError)
  | some j => (store.insert rid { request := j }, InterceptOutcome.registered rid)

/-- HTTP status of a registration outcome: an unhandled exception is
surfaced by the ASGI framework's default error handler as a 500
server-error response; a registered request eventually answers 200. -/
def interceptStatus : InterceptOutcome → Nat
  | InterceptOutcome.registered _ => 200
  | InterceptOutcome.pyError => 500

/-- The guard of the wait loop (src/app.py:50):
`request_id in open_requests and open_requests[request_id].response is None`. -/
def waiterWaits (store : Store) (rid : String) : Bool :=
  match store.find? rid with
  | some e => e.response.isNone
  | none => false

/-- Outcome of the waiter's consume step. -/
inductive ConsumeOutcome where
  | delivered (resp : Option Json)
  | httpError (status : Nat) (detail : String)
  | pyError

/-- The consume step after the wait loop exits (src/app.py:53-55):
`response = open_requests[request_id].response; del open_requests[request_id]`.
When the entry is no longer present both lines raise `KeyError`, an
unguarded lookup failure that escapes the handler. -/
def waiter_consume (store : Store) (rid : String) : Store × ConsumeOutcome :=
  match store.find? rid with
  | none => (store, ConsumeOutcome.pyError)
  | some e => (store.erase rid, ConsumeOutcome.delivered e.response)

/-! ## Passthrough proxy (src/app.py:58-78) -/

/-- A tool call in an upstream draft response. -/
structure DraftToolCall where
  name : String
  arguments : String

/-- The parts of an upstream draft completion that `get_request` inspects:
`response.choices[0].message.tool_calls` and `...message.content`. -/
structure DraftResponse where
  tool_calls : List DraftToolCall
  content : Option String

/-- The `(content, tool_name, tool_arguments)` triple prefilled into the
review form (src/app.py:116-135). All three start empty; on a successful
draft call, a first tool call populates the tool fields, otherwise the
stripped content populates `content`; on any exception the error is
logged and the empty defaults stand. -/
def draftFields (draft : Except Unit DraftResponse) : String × String × String :=
  match draft with
  | Except.error _ => ("", "", "")
  | Except.ok r =>
    match r.tool_calls with
    | tc :: _ => ("", tc.name, tc.arguments)
    | [] => (((r.content.getD "").trim), "", "")

/-- `k in s` for Python strings: substring containment. -/
def pyInStr (s k : String) : Bool :=
  s.data.tails.any (fun t => k.data.isPrefixOf t)

/-- One step of the kwargs construction (src/app.py:109-114):
`if k in request.request: kwargs[k] = request.request[k]`, on the parsed
payload, which need not be a dict. Returns `some (some v)` when the key
is present (the kwargs entry), `some none` when the `in` test is false,
and `none` when the Python code raises `TypeError`: `in` on a number,
boolean or null is not iterable; on a list, `in` compares the key string
against each element without raising, but a hit makes the subscript
`request.request[k]` raise (list indices must be integers); likewise a
substring hit on a string payload makes the subscript raise. -/
def kwargsStep (payload : Json) (k : String) : Option (Option Json) :=
  match payload with
  | Json.obj fs =>
    match fs.lookup k with
    | some v => some (some v)
    | none => some none
  | Json.arr xs =>
    if xs.any (fun e => match e with | Json.str s => s = k | _ => false)
      then none else some none
  | Json.str s => if pyInStr s k then none else some none
  | _ => none

/-- The `kwargs` dict assembled before the draft call (src/app.py:108-114),
from the `messages`, `tools` and `tool_choice` fields of the original
payload; these lines run before the `try`, so `none` (a `TypeError` on a
non-dict payload) escapes the handler unhandled — the draft call and the
review page are never reached. -/
def buildKwargs (payload : Json) : Option (List (String × Json)) :=
  match kwargsStep payload "messages", kwargsStep payload "tools",
      kwargsStep payload "tool_choice" with
  | some m, some t, some tc =>
    some ((match m with | some v => [("messages", v)] | none => []) ++
          (match t with | some v => [("tools", v)] | none => []) ++
          (match tc with | some v => [("tool_choice", v)] | none => []))
  | _, _, _ => none

/-- The data rendered into the review page HTML (src/app.py:137-172):
the original request payload and the three prefilled draft fields. -/
structure ReviewPage where
  requestJson : Json
  content : String
  tool_name : String
  tool_arguments : String

/-- Outcome of `GET /r/{id}`. -/
inductive GetOutcome where
  | page (p : ReviewPage)
  | httpError (status : Nat) (detail : String)
  | pyError

/-- `get_request` (src/app.py:102-174): 404 when the id is not in
`open_requests`; then the kwargs for the draft call are assembled
outside the `try` (src/app.py:108-114) — a `TypeError` there escapes the
handler as an unhandled 500 — and only then is the review page rendered
with the draft fields (`draft` abstracts the upstream call
`openai_client.chat.completions.create(model="gpt-3.5-turbo", **kwargs)`,
`Except.error` models the call raising any exception). The store is
never mutated on this path. -/
def get_request (store : Store) (rid : String) (draft : Except Unit DraftResponse) :
    Store × GetOutcome :=
  match store.find? rid with
  | none => (store, GetOutcome.httpError 404 "Request not found")
  | some entry =>
    match buildKwargs entry.request with
    | none => (store, GetOutcome.pyError)
    | some _kwargs =>
      let f := draftFields draft
      (store, GetOutcome.page
        { requestJson := entry.request
          content := f.1
          tool_name := f.2.1
          tool_arguments := f.2.2 })

/-! ## Review resolver, write path: modify_request (src/app.py:177-228) -/

/-- The `message` object of the constructed response together with
`completion_tokens` (src/app.py:206-220). `none` models a Python
exception: `content.split()` (resp. `tool_name.split()`,
`tool_arguments.split()`) raising `AttributeError` when the form field
was absent (`Form(None)`). For `response_type == "content"` the message
carries the submitted content; for every other value of `response_type`
the message carries a single tool call with the submitted name and
arguments passed through verbatim, and `content = None`. -/
def buildMessage (response_type : String) (content tool_name tool_arguments : Option String)
    (callId : String) : Option (Json × Nat) :=
  if response_type = "content" then
    match content with
    | some c => some (Json.obj [("content", Json.str c)], pySplitCount c)
    | none => none
  else
    match tool_name, tool_arguments with
    | some tn, some ta =>
      some (Json.obj
        [("tool_calls", Json.arr
          [Json.obj
            [("id", Json.str ("call_" ++ callId)),
             ("type", Json.str "function"),
             ("function", Json.obj [("name", Json.str tn), ("arguments", Json.str ta)])]]),
         ("content", Json.null)],
        pySplitCount tn + pySplitCount ta)
    | _, _ => none

/-- `len(m.get("content", "").split())` for one message (src/app.py:198):
`none` when the message is not a dict or its content is not a string
(Python raises there). -/
def messageTokens (m : Json) : Option Nat :=
  match m with
  | Json.obj fs =>
    match fs.lookup "content" with
    | none => some (pySplitCount "")
    | some (Json.str s) => some (pySplitCount s)
    | some _ => none
  | _ => none

/-- `prompt_tokens` (src/app.py:197-200): the whitespace-token counts of
all messages' content summed over `request.get("messages", [])`. `none`
models the Python exceptions on a non-dict payload or malformed messages. -/
def promptTokens (payload : Json) : Option Nat :=
  match payload.getD "messages" (Json.arr []) with
  | some (Json.arr ms) => (ms.mapM messageTokens).map (fun l => l.foldl (· + ·) 0)
  | _ => none

/-- The completion response object constructed by `modify_request`
(src/app.py:190-224), with the nondeterministic inputs passed in:
`now` is `int(time.time())` and `callId` the `uuid.uuid4()` of the tool
call id. `none` models any Python exception during construction. -/
def buildResponse (payload : Json) (rid : String) (response_type : String)
    (content tool_name tool_arguments : Option String) (now : Int) (callId : String) :
    Option Json :=
  match promptTokens payload, payload.getD "model" (Json.str "gpt-3.5-turbo"),
      buildMessage response_type content tool_name tool_arguments callId with
  | some pt, some model, some (msg, ct) =>
    some (Json.obj
      [("id", Json.str ("chatcmpl-" ++ rid)),
       ("object", Json.str "chat.completion"),
       ("created", Json.num now),
       ("model", model),
       ("choices", Json.arr
         [Json.obj [("index", Json.num 0), ("message", msg), ("finish_reason", Json.str "stop")]]),
       ("usage", Json.obj
         [("prompt_tokens", Json.num pt),
          ("completion_tokens", Json.num ct),
          ("total_tokens", Json.num (pt + ct))])])
  | _, _, _ => none

/-- Outcome of `POST /r/{id}`. -/
inductive ModifyOutcome where
  | redirect (location : String)
  | httpError (status : Nat) (detail : String)
  | pyError

/-- `modify_request` (src/app.py:178-228): 404 when the id is not in
`open_requests`; otherwise construct the completion response from the
form fields and store it in the entry's `response` slot, then redirect
to `/`. Note the handler checks only membership of the id — it never
checks whether `response` is already set. -/
def modify_request (store : Store) (rid : String) (response_type : String)
    (content tool_name tool_arguments : Option String) (now : Int) (callId : String) :
    Store × ModifyOutcome :=
  match store.find? rid with
  | none => (store, ModifyOutcome.httpError 404 "Request not found")
  | some entry =>
    match buildResponse entry.request rid response_type content tool_name tool_arguments now callId with
    | none => (store, ModifyOutcome.pyError)
    | some resp => (store.setResponse rid resp, ModifyOutcome.redirect "/")

/-! ## Response accessors (reading a completion response as a client would) -/

/-- `choices[0]` of a completion response. -/
def choice0 (r : Json) : Option Json :=
  match r.get? "choices" with
  | some (Json.arr (c :: _)) => some c
  | _ => none

/-- `choices[0].message`. -/
def respMessage (r : Json) : Option Json :=
  (choice0 r).bind (fun c => c.get? "message")

/-- `choices[0].message.content` (`some Json.null` when the key holds `None`,
`none` when the key is absent). -/
def respContent (r : Json) : Option Json :=
  (respMessage r).bind (fun m => m.get? "content")

/-- `choices[0].message.tool_calls` (`none` when the key is absent). -/
def respToolCalls (r : Json) : Option Json :=
  (respMessage r).bind (fun m => m.get? "tool_calls")

/-- `choices[0].finish_reason`. -/
def respFinishReason (r : Json) : Option Json :=
  (choice0 r).bind (fun c => c.get? "finish_reason")

/-- `usage.<k>` of a completion response. -/
def usageField (r : Json) (k : String) : Option Json :=
  (r.get? "usage").bind (fun u => u.get? k)

/-- The `choices[0].message.content` of the response currently stored in
a pending entry, when any. -/
def storedContent (s : Store) (rid : String) : Option Json :=
  ((s.find? rid).bind (fun e => e.response)).bind respContent

/-! ## Concrete fixtures -/

/-- The original payload of the round-trip example:
`messages=[{"role":"user","content":"hi"}]`. -/
def payloadHi : Json :=
  Json.obj [("messages", Json.arr
    [Json.obj [("role", Json.str "user"), ("content", Json.str "hi")]])]

/-- A store holding one unresolved pending request. -/
def storeC1 : Store := [("rid1", { request := payloadHi })]

/-- The store after a first successful resolve of `rid1` with content `"one"`. -/
def storeC1' : Store :=
  (modify_request storeC1 "rid1" "content" (some "one") none none 5 "u1").1

/-- The store after a second resolve of the same, still unconsumed, id
with content `"two"`. -/
def storeC1'' : Store :=
  (modify_request storeC1' "rid1" "content" (some "two") none none 6 "u2").1

/-- The response constructed by the first resolution of `rid1`
(`response_type=content, content="one"`, at time 5). -/
def respOne : Json :=
  Json.obj
    [("id", Json.str "chatcmpl-rid1"),
     ("object", Json.str "chat.completion"),
     ("created", Json.num 5),
     ("model", Json.str "gpt-3.5-turbo"),
     ("choices", Json.arr
       [Json.obj [("index", Json.num 0),
                  ("message", Json.obj [("content", Json.str "one")]),
                  ("finish_reason", Json.str "stop")]]),
     ("usage", Json.obj
       [("prompt_tokens", Json.num 1),
        ("completion_tokens", Json.num 1),
        ("total_tokens", Json.num 2)])]

/-- The response constructed by the second resolution of `rid1`
(`response_type=content, content="two"`, at time 6). -/
def respTwo : Json :=
  Json.obj
    [("id", Json.str "chatcmpl-rid1"),
     ("object", Json.str "chat.completion"),
     ("created", Json.num 6),
     ("model", Json.str "gpt-3.5-turbo"),
     ("choices", Json.arr
       [Json.obj [("index", Json.num 0),
                  ("message", Json.obj [("content", Json.str "two")]),
                  ("finish_reason", Json.str "stop")]]),
     ("usage", Json.obj
       [("prompt_tokens", Json.num 1),
        ("completion_tokens", Json.num 1),
        ("total_tokens", Json.num 2)])]

/-- The response constructed by a tool-call submission
(`tool_name="lookup"`, `tool_arguments='\x7b"q":"x"\x7d'`, at time 9,
tool-call uuid `u3`) against `payloadHi`. -/
def respTool : Json :=
  Json.obj
    [("id", Json.str "chatcmpl-rid1"),
     ("object", Json.str "chat.completion"),
     ("created", Json.num 9),
     ("model", Json.str "gpt-3.5-turbo"),
     ("choices", Json.arr
       [Json.obj [("index", Json.num 0),
                  ("message", Json.obj
                    [("tool_calls", Json.arr
                      [Json.obj
                        [("id", Json.str "call_u3"),
                         ("type", Json.str "function"),
                         ("function", Json.obj
                           [("name", Json.str "lookup"),
                            ("arguments", Json.str "\x7b\"q\":\"x\"\x7d")])]]),
                     ("content", Json.null)]),
                  ("finish_reason", Json.str "stop")]]),
     ("usage", Json.obj
       [("prompt_tokens", Json.num 1),
        ("completion_tokens", Json.num 2),
        ("total_tokens", Json.num 3)])]

/-! ## Theorems -/

/-- Looking up a key after `setResponse` on that key yields the original
entry with its `response` slot overwritten. -/
theorem Store.find?_setResponse (s : Store) (rid : String) (r : Json) :
    (s.setResponse rid r).find? rid =
      (s.find? rid).map (fun e => { e with response := some r }) := by
  induction s with
  | nil => rfl
  | cons kv rest ih =>
    by_cases hk : kv.1 = rid
    · simp [Store.setResponse, Store.find?, hk]
    · simp [Store.setResponse, Store.find?, hk]
      simpa [Store.setResponse] using ih

/-- Claim C1, counterexample: resolving the same pending id twice does
not fail — `modify_request` checks only membership of the id, so the
second resolve also returns the redirect and silently overwrites the
stored result: after resolving `rid1` with `"one"` and then `"two"`, the
stored response's content is `"two"`, not the first call's `"one"`. -/
theorem c1_counterexample :
    (modify_request storeC1 "rid1" "content" (some "one") none none 5 "u1").2 =
      ModifyOutcome.redirect "/" ∧
    storedContent storeC1' "rid1" = some (Json.str "one") ∧
    (modify_request storeC1' "rid1" "content" (some "two") none none 6 "u2").2 =
      ModifyOutcome.redirect "/" ∧
    storedContent storeC1'' "rid1" = some (Json.str "two") ∧
    Json.str "two" ≠ Json.str "one" := by
  refine ⟨rfl, rfl, rfl, rfl, ?_⟩
  intro h
  injection h with h2
  exact absurd h2 (by decide)

/-- Claim C1, amended: a resolve (`POST /r/{id}`) on an entry that is
already resolved but not yet consumed does not fail with
`AlreadyResolved`: it succeeds exactly like a first resolve (redirect to
`/`) and overwrites the entry, so the stored `resultPayload` after both
calls equals the result of the second call. -/
theorem c1_amended (store : Store) (rid : String) (e : ChatCompletionRequest) (r0 : Json)
    (hfind : store.find? rid = some e) (_hres : e.response = some r0)
    (rt : String) (c tn ta : Option String) (now : Int) (cid : String) (r : Json)
    (hb : buildResponse e.request rid rt c tn ta now cid = some r) :
    (modify_request store rid rt c tn ta now cid).2 = ModifyOutcome.redirect "/" ∧
    (modify_request store rid rt c tn ta now cid).1.find? rid =
      some { e with response := some r } := by
  unfold modify_request
  simp only [hfind, hb]
  refine ⟨trivial, ?_⟩
  rw [Store.find?_setResponse, hfind]
  rfl

/-- Claim C1, witness for the amended theorem: the second resolve of the
already-resolved `rid1` succeeds and overwrites `respOne` with `respTwo`. -/
theorem c1_amended_witness :
    (modify_request storeC1' "rid1" "content" (some "two") none none 6 "u2").2 =
      ModifyOutcome.redirect "/" ∧
    (modify_request storeC1' "rid1" "content" (some "two") none none 6 "u2").1.find? "rid1" =
      some { request := payloadHi, response := some respTwo } :=
  c1_amended storeC1' "rid1" { request := payloadHi, response := some respOne } respOne
    rfl rfl "content" (some "two") none none 6 "u2" respTwo rfl

/-- Claim C2: submitting `response_type=content, content="hello world"`
against a pending request whose payload has
`messages=[{"role":"user","content":"hi"}]` yields a completion response
whose `choices[0].message.content` is `"hello world"`, with no
`tool_calls` key, `usage.prompt_tokens = 1`, `usage.completion_tokens = 2`
and `usage.total_tokens = 3`, for every request id, timestamp and
tool-call uuid and whatever tool form fields accompany the submission. -/
theorem c2_content_round_trip (rid : String) (now : Int) (cid : String) (tn ta : Option String) :
    ∃ r, buildResponse payloadHi rid "content" (some "hello world") tn ta now cid = some r ∧
      respContent r = some (Json.str "hello world") ∧
      respToolCalls r = none ∧
      usageField r "prompt_tokens" = some (Json.num 1) ∧
      usageField r "completion_tokens" = some (Json.num 2) ∧
      usageField r "total_tokens" = some (Json.num 3) := by
  exact ⟨_, rfl, rfl, rfl, rfl, rfl, rfl⟩

/-- Claim C3: every tool-call submission with `tool_name="lookup"` and
`tool_arguments='\x7b"q":"x"\x7d'` that constructs a response yields
`choices[0].message.content = null` and exactly one tool call whose
function name and arguments string are the submitted values verbatim —
the arguments string is a raw passthrough, never re-parsed or
reformatted. -/
theorem c3_tool_call_verbatim (payload : Json) (rid : String) (c : Option String)
    (now : Int) (cid : String) (r : Json)
    (h : buildResponse payload rid "tool_call" c (some "lookup")
      (some "\x7b\"q\":\"x\"\x7d") now cid = some r) :
    respContent r = some Json.null ∧
    respToolCalls r = some (Json.arr
      [Json.obj
        [("id", Json.str ("call_" ++ cid)),
         ("type", Json.str "function"),
         ("function", Json.obj
           [("name", Json.str "lookup"),
            ("arguments", Json.str "\x7b\"q\":\"x\"\x7d")])]]) := by
  unfold buildResponse at h
  split at h
  · rename_i pt model msg ct hpt hmodel hbm
    injection hbm with hbm2
    injection hbm2 with h3 h4
    subst h3
    subst h4
    injection h with h2
    subst h2
    exact ⟨rfl, rfl⟩
  · exact Option.noConfusion h

/-- Claim C3, witness: the tool-call submission against `payloadHi`
constructs `respTool`, whose message content is `null` and whose single
tool call carries the submitted name and arguments verbatim. -/
theorem c3_witness :
    buildResponse payloadHi "rid1" "tool_call" none (some "lookup")
      (some "\x7b\"q\":\"x\"\x7d") 9 "u3" = some respTool ∧
    (respContent respTool = some Json.null ∧
     respToolCalls respTool = some (Json.arr
       [Json.obj
         [("id", Json.str ("call_" ++ "u3")),
          ("type", Json.str "function"),
          ("function", Json.obj
            [("name", Json.str "lookup"),
             ("arguments", Json.str "\x7b\"q\":\"x\"\x7d")])]])) :=
  ⟨rfl, c3_tool_call_verbatim payloadHi "rid1" none 9 "u3" respTool rfl⟩

/-- Claim C4, counterexample: a malformed JSON body on
`POST /v1/chat/completions` does leave the store without a new entry,
but the handler does not answer with a client-error status: the
`JSONDecodeError` escapes unhandled and surfaces as status 500, which is
not in the 4xx range. -/
theorem c4_counterexample :
    chat_completions_register [] "rid0" none = ([], InterceptOutcome.pyError) ∧
    interceptStatus (chat_completions_register [] "rid0" none).2 = 500 ∧
    ¬(400 ≤ interceptStatus (chat_completions_register [] "rid0" none).2 ∧
      interceptStatus (chat_completions_register [] "rid0" none).2 < 500) := by
  refine ⟨rfl, rfl, ?_⟩
  intro h
  exact absurd h.2 (by decide)

/-- Claim C4, amended: for every store, a malformed JSON body makes
`chat_completions` fail before any store mutation — no entry is ever
created — but through an unhandled parse exception that the framework
surfaces as a 500 server error rather than a client-error status. -/
theorem c4_amended (store : Store) (rid : String) :
    chat_completions_register store rid none = (store, InterceptOutcome.pyError) ∧
    interceptStatus InterceptOutcome.pyError = 500 := ⟨rfl, rfl⟩

/-- Claim C5, counterexample: with the pending entry deleted, the wait
loop's guard is false (the Waiter stops polling), but the consume step
does not produce a defined not-found outcome — it hits the unguarded
lookup `open_requests[request_id]`, raising `KeyError`. -/
theorem c5_counterexample :
    waiterWaits [] "rid0" = false ∧
    waiter_consume [] "rid0" = ([], ConsumeOutcome.pyError) ∧
    ConsumeOutcome.pyError ≠ ConsumeOutcome.httpError 404 "Request not found" := by
  refine ⟨rfl, rfl, ?_⟩
  intro h
  cases h

/-- Claim C5, amended: if the pending entry is deleted while the Waiter
is polling, the Waiter does terminate (the loop guard becomes false, so
it never loops forever), but it then fails on the unguarded lookup of
the deleted id (`KeyError`, a server error) instead of a defined
not-found outcome; the store is left unchanged. -/
theorem c5_amended (store : Store) (rid : String) (h : store.find? rid = none) :
    waiterWaits store rid = false ∧
    waiter_consume store rid = (store, ConsumeOutcome.pyError) := by
  unfold waiterWaits waiter_consume
  rw [h]
  exact ⟨rfl, rfl⟩

/-- Claim C5, witness for the amended theorem, at the empty store. -/
theorem c5_amended_witness :
    waiterWaits [] "gone" = false ∧
    waiter_consume [] "gone" = ([], ConsumeOutcome.pyError) :=
  c5_amended [] "gone" rfl

/-- Claim C7: for every id absent from the store — never created, or
already consumed and removed — both `GET /r/{id}` and `POST /r/{id}`
answer 404 `Request not found` and leave the store unchanged. -/
theorem c7_not_found (store : Store) (rid : String) (h : store.find? rid = none)
    (draft : Except Unit DraftResponse) (rt : String) (c tn ta : Option String)
    (now : Int) (cid : String) :
    get_request store rid draft = (store, GetOutcome.httpError 404 "Request not found") ∧
    modify_request store rid rt c tn ta now cid =
      (store, ModifyOutcome.httpError 404 "Request not found") := by
  unfold get_request modify_request
  rw [h]
  exact ⟨rfl, rfl⟩

/-- Claim C7, witness: both endpoints answer 404 for an unknown id on
the empty store. -/
theorem c7_not_found_witness :
    get_request [] "ghost" (Except.error ()) =
      ([], GetOutcome.httpError 404 "Request not found") ∧
    modify_request [] "ghost" "content" (some "x") none none 0 "cid" =
      ([], ModifyOutcome.httpError 404 "Request not found") :=
  c7_not_found [] "ghost" rfl (Except.error ()) "content" (some "x") none none 0 "cid"

/-- The kwargs construction of `GET /r/{id}` runs before the `try`
(src/app.py:109-114): on an entry whose payload is a top-level JSON
scalar — storable, since the interception endpoint accepts any
well-formed JSON body — `"messages" in request.request` raises
`TypeError` and the handler fails with an unhandled 500 before any
draft call; the review page is not produced. -/
theorem get_request_scalar_payload :
    get_request [("rid5", { request := Json.num 5 })] "rid5" (Except.error ()) =
      ([("rid5", { request := Json.num 5 })], GetOutcome.pyError) := rfl

/-- Claim C8: for every pending entry on which the draft call is reached
— the kwargs construction of src/app.py:108-114 completed without
raising — when that upstream draft call fails with an error, the review
page is still produced, with empty content, empty tool name and empty
tool arguments; the upstream error is not propagated as a failure of the
page, and the store (hence the pending entry) is unchanged. -/
theorem c8_draft_failure (store : Store) (rid : String) (e : ChatCompletionRequest)
    (h : store.find? rid = some e) (kw : List (String × Json))
    (hkw : buildKwargs e.request = some kw) :
    get_request store rid (Except.error ()) =
      (store, GetOutcome.page
        { requestJson := e.request, content := "", tool_name := "", tool_arguments := "" }) := by
  unfold get_request
  simp only [h, hkw]
  rfl

/-- Claim C8, witness: rendering `rid1` of `storeC1` — whose kwargs
construction succeeds with the original `messages` — with a failing
draft call yields the review page with an empty draft. -/
theorem c8_draft_failure_witness :
    Store.find? storeC1 "rid1" = some { request := payloadHi } ∧
    buildKwargs payloadHi = some [("messages", Json.arr
      [Json.obj [("role", Json.str "user"), ("content", Json.str "hi")]])] ∧
    get_request storeC1 "rid1" (Except.error ()) =
      (storeC1, GetOutcome.page
        { requestJson := payloadHi, content := "", tool_name := "", tool_arguments := "" }) :=
  ⟨rfl, rfl,
   c8_draft_failure storeC1 "rid1" { request := payloadHi } rfl
     [("messages", Json.arr
       [Json.obj [("role", Json.str "user"), ("content", Json.str "hi")]])] rfl⟩

/-- Claim C9: every successfully constructed completion response carries
the identifier `"chatcmpl-" ++ id`, the object tag `"chat.completion"`,
`created` equal to the current time, `model` echoed from the original
payload's `model` field with default `"gpt-3.5-turbo"` when absent, and
exactly one choice whose `finish_reason` is `"stop"`. -/
theorem c9_envelope (payload : Json) (rid rt : String) (c tn ta : Option String)
    (now : Int) (cid : String) (r : Json)
    (h : buildResponse payload rid rt c tn ta now cid = some r) :
    r.get? "id" = some (Json.str ("chatcmpl-" ++ rid)) ∧
    r.get? "object" = some (Json.str "chat.completion") ∧
    r.get? "created" = some (Json.num now) ∧
    (∃ mv, payload.getD "model" (Json.str "gpt-3.5-turbo") = some mv ∧
      r.get? "model" = some mv) ∧
    (∃ msg, r.get? "choices" = some (Json.arr
      [Json.obj [("index", Json.num 0), ("message", msg),
                 ("finish_reason", Json.str "stop")]]) ∧
      respFinishReason r = some (Json.str "stop")) := by
  unfold buildResponse at h
  split at h
  · rename_i pt model msg ct hpt hmodel hbm
    injection h with h2
    subst h2
    exact ⟨rfl, rfl, rfl, ⟨model, hmodel, rfl⟩, ⟨msg, rfl, rfl⟩⟩
  · exact Option.noConfusion h

/-- Claim C9, witness: the response `respOne` constructed for `rid1` at
time 5 has the synthesized id, object tag, timestamp, defaulted model
and a single `"stop"` choice. -/
theorem c9_witness :
    buildResponse payloadHi "rid1" "content" (some "one") none none 5 "u1" = some respOne ∧
    (respOne.get? "id" = some (Json.str ("chatcmpl-" ++ "rid1")) ∧
     respOne.get? "object" = some (Json.str "chat.completion") ∧
     respOne.get? "created" = some (Json.num 5) ∧
     (∃ mv, payloadHi.getD "model" (Json.str "gpt-3.5-turbo") = some mv ∧
       respOne.get? "model" = some mv) ∧
     (∃ msg, respOne.get? "choices" = some (Json.arr
       [Json.obj [("index", Json.num 0), ("message", msg),
                  ("finish_reason", Json.str "stop")]]) ∧
       respFinishReason respOne = some (Json.str "stop"))) :=
  ⟨rfl, c9_envelope payloadHi "rid1" "content" (some "one") none none 5 "u1" respOne rfl⟩

/-- Claim C10: every `response_type` other than the exact string
`"content"` is treated as a tool-call submission: the message is the
single tool call built from the submitted name and arguments with
`content = null`, and the whole submission behaves exactly like
`response_type = "tool_call"` — no value of `response_type` is ever
rejected as invalid. -/
theorem c10_any_response_type (rt : String) (h : rt ≠ "content") (store : Store)
    (rid : String) (c : Option String) (tn ta : String) (now : Int) (cid : String) :
    buildMessage rt c (some tn) (some ta) cid =
      some (Json.obj
        [("tool_calls", Json.arr
          [Json.obj
            [("id", Json.str ("call_" ++ cid)),
             ("type", Json.str "function"),
             ("function", Json.obj [("name", Json.str tn), ("arguments", Json.str ta)])]]),
         ("content", Json.null)],
        pySplitCount tn + pySplitCount ta) ∧
    buildMessage rt c (some tn) (some ta) cid = buildMessage "tool_call" c (some tn) (some ta) cid ∧
    modify_request store rid rt c (some tn) (some ta) now cid =
      modify_request store rid "tool_call" c (some tn) (some ta) now cid := by
  have hbm : buildMessage rt c (some tn) (some ta) cid =
      some (Json.obj
        [("tool_calls", Json.arr
          [Json.obj
            [("id", Json.str ("call_" ++ cid)),
             ("type", Json.str "function"),
             ("function", Json.obj [("name", Json.str tn), ("arguments", Json.str ta)])]]),
         ("content", Json.null)],
        pySplitCount tn + pySplitCount ta) := by
    unfold buildMessage
    rw [if_neg h]
  have hbr : ∀ payload : Json,
      buildResponse payload rid rt c (some tn) (some ta) now cid =
        buildResponse payload rid "tool_call" c (some tn) (some ta) now cid := by
    intro payload
    unfold buildResponse
    rw [hbm]
    rfl
  refine ⟨hbm, by rw [hbm]; rfl, ?_⟩
  unfold modify_request
  cases hf : store.find? rid with
  | none => rfl
  | some e => simp only [hbr]

/-- Claim C10, witness: the unknown `response_type` value `"weird"` is
treated exactly like a tool-call submission. -/
theorem c10_witness :
    "weird" ≠ "content" ∧
    (buildMessage "weird" none (some "lookup") (some "\x7b\"q\":\"x\"\x7d") "u4" =
      some (Json.obj
        [("tool_calls", Json.arr
          [Json.obj
            [("id", Json.str ("call_" ++ "u4")),
             ("type", Json.str "function"),
             ("function", Json.obj
               [("name", Json.str "lookup"),
                ("arguments", Json.str "\x7b\"q\":\"x\"\x7d")])]]),
         ("content", Json.null)],
        pySplitCount "lookup" + pySplitCount "\x7b\"q\":\"x\"\x7d") ∧
     buildMessage "weird" none (some "lookup") (some "\x7b\"q\":\"x\"\x7d") "u4" =
       buildMessage "tool_call" none (some "lookup") (some "\x7b\"q\":\"x\"\x7d") "u4" ∧
     modify_request [] "nope" "weird" none (some "lookup") (some "\x7b\"q\":\"x\"\x7d") 0 "u4" =
       modify_request [] "nope" "tool_call" none (some "lookup") (some "\x7b\"q\":\"x\"\x7d") 0 "u4") :=
  ⟨by decide,
   c10_any_response_type "weird" (by decide) [] "nope" none "lookup" "\x7b\"q\":\"x\"\x7d" 0 "u4"⟩
